import Mathlib

/-!
Verification development for the obsidian-task-reward plugin.

Shallow embedding of the event pipeline in `main.ts` (task-transition
handling, undo protection, merge/debounce timer, global throttle,
coordinate cache), the sound dispatch in `sound.ts`, the confetti origin
computation in `confetti.ts`, and the settings-tab test actions in
`settings.ts`.

Modelling conventions:
- timestamps and millisecond durations are `Nat` (`Date.now()` values);
- pixel coordinates and volumes are `ℚ`;
- the JS `Map` objects keyed by the string `` `${file.path}:${line}` ``
  are association lists `List (String × _)` kept duplicate-free by
  construction (set removes the old binding);
- the geometry lookup `computeTaskCoordinates` depends on the live view,
  an external collaborator; it is passed in as a parameter
  `geom : String → Nat → Option Coord`;
- `window.setTimeout` / `clearTimeout` are modelled by storing the timer's
  expiry time in `mergeTimer` and mirroring the host's set of pending
  timers in the ghost field `liveTimers`.
-/

/-- A pixel coordinate, as produced by `getBoundingClientRect` centers. -/
structure Coord where
  x : ℚ
  y : ℚ
deriving DecidableEq, Repr

/-- The `TaskEvent` record of `main.ts`: file path, line, checked flag,
timestamp, optional screen coordinate (`coords?: {x,y} | null`). -/
structure TaskEvent where
  file : String
  line : Nat
  checked : Bool
  timestamp : Nat
  coords : Option Coord := none
deriving DecidableEq, Repr

/-- The `RewardSettings` record of `settings.ts`. -/
structure RewardSettings where
  enableSound : Bool
  enableConfetti : Bool
  globalMute : Bool
  disableConfetti : Bool
  soundVolume : ℚ
  confettiDuration : Nat
  mergeWindowMs : Nat
  throttleMs : Nat
  undoWindowMs : Nat
deriving DecidableEq, Repr

/-- `DEFAULT_SETTINGS` from `settings.ts`. -/
def DEFAULT_SETTINGS : RewardSettings :=
  { enableSound := true
    enableConfetti := true
    globalMute := false
    disableConfetti := false
    soundVolume := 3/10
    confettiDuration := 800
    mergeWindowMs := 300
    throttleMs := 250
    undoWindowMs := 1000 }

/-- The string key `` `${file.path}:${line}` `` used by all three maps. -/
def mkKey (path : String) (line : Nat) : String :=
  path ++ ":" ++ toString line

/-- `Map.get`: first binding for the key (lists are duplicate-free by
construction, so "first" is "the" binding). -/
def mapGet {β : Type} : List (String × β) → String → Option β
  | [], _ => none
  | (k, v) :: rest, key => if k = key then some v else mapGet rest key

/-- `Map.delete`: drop every binding for the key. -/
def mapDel {β : Type} : List (String × β) → String → List (String × β)
  | [], _ => []
  | (k, v) :: rest, key =>
      if k = key then mapDel rest key else (k, v) :: mapDel rest key

/-- `Map.set`: bind the key, removing any previous binding. -/
def mapSet {β : Type} (m : List (String × β)) (key : String) (v : β) :
    List (String × β) :=
  (key, v) :: mapDel m key

/-- Mutable state of the `TaskRewardPlugin` instance (fields of the class
in `main.ts`).  `liveTimers` is a ghost field mirroring the host's set of
pending timeouts, used to state the "at most one merge timer" invariant. -/
structure PluginState where
  taskEventQueue : List TaskEvent
  mergeTimer : Option Nat
  lastFeedbackTime : Nat
  undoProtection : List (String × Nat)
  recentTaskCoordinates : List (String × Coord × Nat)
  liveTimers : List Nat
deriving DecidableEq, Repr

/-- The plugin's state right after `onload`. -/
def initState : PluginState :=
  { taskEventQueue := []
    mergeTimer := none
    lastFeedbackTime := 0
    undoProtection := []
    recentTaskCoordinates := []
    liveTimers := [] }

/-- `TaskRewardPlugin.queueTaskEvent` (`main.ts` 346–372): consult the
coordinate cache (fresh = captured strictly less than 1500 ms ago), delete
the cache entry unconditionally, enrich the event
(`cachedCoords ?? event.coords ?? computeTaskCoordinates(...)`), push it
onto the pending batch, cancel the running merge timer and start a new one
of length `mergeWindowMs`. -/
def queueTaskEvent (geom : String → Nat → Option Coord) (s : RewardSettings)
    (st : PluginState) (event : TaskEvent) (now : Nat) : PluginState :=
  let key := mkKey event.file event.line
  let cachedCoords : Option Coord :=
    match mapGet st.recentTaskCoordinates key with
    | some (c, ts) => if now - ts < 1500 then some c else none
    | none => none
  let coords : Option Coord :=
    match cachedCoords with
    | some c => some c
    | none =>
        match event.coords with
        | some c => some c
        | none => geom event.file event.line
  let cleared : List Nat :=
    match st.mergeTimer with
    | some h => st.liveTimers.erase h
    | none => st.liveTimers
  { st with
    recentTaskCoordinates := mapDel st.recentTaskCoordinates key
    taskEventQueue := st.taskEventQueue ++ [{ event with coords := coords }]
    mergeTimer := some (now + s.mergeWindowMs)
    liveTimers := cleared ++ [now + s.mergeWindowMs] }

/-- Feedback intensity tier. -/
inductive Intensity where
  | light
  | medium
  | heavy
deriving DecidableEq, Repr

/-- The sound half of a `FeedbackProfile`. -/
structure SoundDirective where
  intensity : Intensity
  volume : ℚ
deriving DecidableEq, Repr

/-- The confetti half of a `FeedbackProfile`. -/
structure ConfettiDirective where
  intensity : Intensity
  particleCount : Nat
  duration : Nat
deriving DecidableEq, Repr

/-- The `FeedbackProfile` interface of `main.ts`. -/
structure FeedbackProfile where
  sound : Option SoundDirective
  confetti : Option ConfettiDirective
deriving DecidableEq, Repr

/-- `TaskRewardPlugin.getParticleCount` (`main.ts` 423–425). -/
def getParticleCount (_intensity : Intensity) : Nat := 150

/-- `TaskRewardPlugin.getFeedbackProfile` (`main.ts` 403–421).
`reducedMotion` is the external `prefers-reduced-motion` media query. -/
def getFeedbackProfile (s : RewardSettings) (reducedMotion : Bool)
    (_count : Nat) : FeedbackProfile :=
  let muted := s.globalMute
  let intensity := Intensity.heavy
  { sound := if muted then none else some ⟨intensity, s.soundVolume⟩
    confetti :=
      if reducedMotion || s.disableConfetti then none
      else some ⟨intensity, getParticleCount intensity, s.confettiDuration⟩ }

/-- `TaskRewardPlugin.getConfettiOrigin` (`main.ts` 450–474): resolve each
event's coordinate (falling back to the geometry lookup), drop failures,
and average the rest; `none` when no event yielded a coordinate. -/
def getConfettiOrigin (geom : String → Nat → Option Coord)
    (events : List TaskEvent) : Option Coord :=
  let coords := events.filterMap (fun e =>
    match e.coords with
    | some c => some c
    | none => geom e.file e.line)
  match coords with
  | [] => none
  | _ =>
      some ⟨(coords.map Coord.x).sum / (coords.length : ℚ),
            (coords.map Coord.y).sum / (coords.length : ℚ)⟩

/-- What a flush actually sent to the two output drivers. -/
structure Dispatch where
  sound : Option SoundDirective
  confetti : Option (ConfettiDirective × Option Coord)
deriving DecidableEq, Repr

/-- `TaskRewardPlugin.triggerFeedback` (`main.ts` 427–448), as the pure
record of the calls it makes: sound gated on `profile.sound` and
`enableSound`, confetti gated on `profile.confetti` and `enableConfetti`
with the origin resolved from the batch. -/
def triggerFeedback (geom : String → Nat → Option Coord)
    (s : RewardSettings) (profile : FeedbackProfile)
    (events : List TaskEvent) : Dispatch :=
  { sound :=
      match profile.sound with
      | some d => if s.enableSound then some d else none
      | none => none
    confetti :=
      match profile.confetti with
      | some c =>
          if s.enableConfetti then some (c, getConfettiOrigin geom events)
          else none
      | none => none }

/-- `TaskRewardPlugin.processMergedEvents` (`main.ts` 374–401), run as the
merge-timer callback at time `now`.  Returns the new state and, when a
dispatch happened, the batch that was dispatched together with the
directives sent to the drivers. -/
def processMergedEvents (geom : String → Nat → Option Coord)
    (s : RewardSettings) (rm : Bool) (st : PluginState) (now : Nat) :
    PluginState × Option (List TaskEvent × Dispatch) :=
  if now - st.lastFeedbackTime < s.throttleMs then
    ({ st with taskEventQueue := [], mergeTimer := none }, none)
  else if st.taskEventQueue.length = 0 then
    ({ st with mergeTimer := none }, none)
  else
    ({ st with
        taskEventQueue := []
        mergeTimer := none
        lastFeedbackTime := now },
     some (st.taskEventQueue,
           triggerFeedback geom s
             (getFeedbackProfile s rm st.taskEventQueue.length)
             st.taskEventQueue))

/-- Firing the merge timer scheduled for `exp`: the host removes the
expired timeout from its pending set and runs `processMergedEvents` as the
callback. -/
def fireTimer (geom : String → Nat → Option Coord) (s : RewardSettings)
    (rm : Bool) (st : PluginState) (exp : Nat) :
    PluginState × Option (List TaskEvent × Dispatch) :=
  processMergedEvents geom s rm
    { st with liveTimers := st.liveTimers.erase exp } exp

/-- One flush execution: the time it ran, and the dispatched batch and
directives when it was not dropped (by the throttle or an empty batch). -/
structure FlushRec where
  time : Nat
  result : Option (List TaskEvent × Dispatch)
deriving DecidableEq, Repr

/-- Event-loop simulation: process a time-ordered list of check-event
arrivals.  Before handling an arrival, a pending merge timer whose expiry
has been reached fires; a merge timer still pending after the last arrival
fires at its expiry.  Returns the final state and the flush executions in
order. -/
def runArrivals (geom : String → Nat → Option Coord) (s : RewardSettings)
    (rm : Bool) : PluginState → List (TaskEvent × Nat) →
    PluginState × List FlushRec
  | st, [] =>
      match st.mergeTimer with
      | some exp =>
          ((fireTimer geom s rm st exp).1, [⟨exp, (fireTimer geom s rm st exp).2⟩])
      | none => (st, [])
  | st, (e, t) :: rest =>
      match st.mergeTimer with
      | some exp =>
          if exp ≤ t then
            ((runArrivals geom s rm
                (queueTaskEvent geom s (fireTimer geom s rm st exp).1 e t) rest).1,
             ⟨exp, (fireTimer geom s rm st exp).2⟩ ::
               (runArrivals geom s rm
                 (queueTaskEvent geom s (fireTimer geom s rm st exp).1 e t) rest).2)
          else runArrivals geom s rm (queueTaskEvent geom s st e t) rest
      | none => runArrivals geom s rm (queueTaskEvent geom s st e t) rest

/-- Times of the flush executions that actually dispatched. -/
def dispatchTimes (fs : List FlushRec) : List Nat :=
  fs.filterMap (fun f =>
    match f.result with
    | some _ => some f.time
    | none => none)

/-- `tight w prev arrivals`: every arrival comes no earlier than the
previous one and strictly before the merge timer set by the previous one
(at `prev + w`) expires. -/
def tight (w : Nat) : Nat → List (TaskEvent × Nat) → Prop
  | _, [] => True
  | prev, (_, t) :: rest => prev ≤ t ∧ t < prev + w ∧ tight w t rest

/-- Arrival time of the last element, with a default. -/
def lastTime (d : Nat) : List (TaskEvent × Nat) → Nat
  | [] => d
  | (_, t) :: rest => lastTime t rest

/-- `TaskRewardPlugin.cleanupUndoProtection`'s eviction loop
(`main.ts` 339–343): delete every entry with `now - time > w2`. -/
def evictOld : List (String × Nat) → Nat → Nat → List (String × Nat)
  | [], _, _ => []
  | (k, time) :: rest, now, w2 =>
      if now - time > w2 then evictOld rest now w2
      else (k, time) :: evictOld rest now w2

/-- `TaskRewardPlugin.cleanupUndoProtection` (`main.ts` 337–344): a no-op
while the ledger holds at most 100 entries, otherwise evict entries older
than `undoWindowMs * 2`. -/
def cleanupUndoProtection (s : RewardSettings) (st : PluginState)
    (now : Nat) : PluginState :=
  if st.undoProtection.length ≤ 100 then st
  else
    { st with
        undoProtection := evictOld st.undoProtection now (s.undoWindowMs * 2) }

/-- The per-task body of `TaskRewardPlugin.handleTaskMetadataChange`
(`main.ts` 300–324), given the diffed previous/current checked flags for
one (document, line).  On a check transition, a recorded uncheck suppresses
it when `lastUndoTime && now - lastUndoTime < undoWindowMs` (JS truthiness:
a timestamp of 0 never suppresses); otherwise the ledger is pruned and the
event is enqueued.  On an uncheck transition the ledger records `now`. -/
def onTransition (geom : String → Nat → Option Coord) (s : RewardSettings)
    (st : PluginState) (path : String) (line : Nat)
    (wasChecked isChecked : Bool) (now : Nat) : PluginState :=
  let taskKey := mkKey path line
  if !wasChecked && isChecked then
    match mapGet st.undoProtection taskKey with
    | some lastUndoTime =>
        if lastUndoTime ≠ 0 ∧ now - lastUndoTime < s.undoWindowMs then st
        else
          queueTaskEvent geom s (cleanupUndoProtection s st now)
            { file := path, line := line, checked := true, timestamp := now }
            now
    | none =>
        queueTaskEvent geom s (cleanupUndoProtection s st now)
          { file := path, line := line, checked := true, timestamp := now }
          now
  else if wasChecked && !isChecked then
    { st with undoProtection := mapSet st.undoProtection taskKey now }
  else st

/-- Process a sequence of transitions on one (document, line) key: each
entry `(b, t)` is a flip to checked state `b` at time `t` (so the previous
state was `!b`). -/
def runKeySeq (geom : String → Nat → Option Coord) (s : RewardSettings)
    (path : String) (line : Nat) :
    PluginState → List (Bool × Nat) → PluginState
  | st, [] => st
  | st, (b, t) :: rest =>
      runKeySeq geom s path line
        (onTransition geom s st path line (!b) b t) rest

/-- Timestamp of the most recent uncheck in a transition sequence, given
the most recent uncheck before it. -/
def lastUncheck : Option Nat → List (Bool × Nat) → Option Nat
  | o, [] => o
  | o, (b, t) :: rest => lastUncheck (if b then o else some t) rest

/-- The undo ledger of a single-key run: empty, or exactly the most recent
uncheck time for that key. -/
def optLedger (key : String) : Option Nat → List (String × Nat)
  | none => []
  | some t => [(key, t)]

/-- `TaskRewardPlugin.triggerFeedback` with throwing output drivers: the
sound driver runs first, then the confetti driver; an exception from
either aborts the rest (there is no try/catch in the source). -/
def triggerFeedbackExc (soundDrv : SoundDirective → Except String Unit)
    (confettiDrv : ConfettiDirective → Option Coord → Except String Unit)
    (geom : String → Nat → Option Coord) (s : RewardSettings)
    (profile : FeedbackProfile) (events : List TaskEvent) :
    Except String Unit :=
  let soundStep : Except String Unit :=
    match profile.sound with
    | some d => if s.enableSound then soundDrv d else .ok ()
    | none => .ok ()
  match soundStep with
  | .error msg => .error msg
  | .ok _ =>
      match profile.confetti with
      | some c =>
          if s.enableConfetti then
            confettiDrv c (getConfettiOrigin geom events)
          else .ok ()
      | none => .ok ()

/-- `TaskRewardPlugin.processMergedEvents` with throwing drivers, exactly
as the source orders its statements: `triggerFeedback` runs before the
queue, timer and `lastFeedbackTime` updates, with no surrounding
try/catch.  On a driver exception the mutations made so far persist (none
have happened yet on that path) and the exception propagates as
`some msg`. -/
def processMergedEventsExc (soundDrv : SoundDirective → Except String Unit)
    (confettiDrv : ConfettiDirective → Option Coord → Except String Unit)
    (geom : String → Nat → Option Coord) (s : RewardSettings) (rm : Bool)
    (st : PluginState) (now : Nat) : PluginState × Option String :=
  if now - st.lastFeedbackTime < s.throttleMs then
    ({ st with taskEventQueue := [], mergeTimer := none }, none)
  else if st.taskEventQueue.length = 0 then
    ({ st with mergeTimer := none }, none)
  else
    match triggerFeedbackExc soundDrv confettiDrv geom s
        (getFeedbackProfile s rm st.taskEventQueue.length)
        st.taskEventQueue with
    | .error msg => (st, some msg)
    | .ok _ =>
        ({ st with
            taskEventQueue := []
            mergeTimer := none
            lastFeedbackTime := now }, none)

/-- A flush scenario for claim C1: one pending event, merge timer set. -/
def c1State : PluginState :=
  { initState with
      taskEventQueue :=
        [{ file := "note.md", line := 3, checked := true, timestamp := 1000 }]
      mergeTimer := some 1300
      liveTimers := [1300] }

/-- A confetti driver that throws during dispatch. -/
def c1ConfettiDrv : ConfettiDirective → Option Coord → Except String Unit :=
  fun _ _ => .error "boom"

/-- `SoundManager.playRewardSound`'s intensity multiplier
(`sound.ts` 121). -/
def volumeMultiplier : Intensity → ℚ
  | .light => 8/10
  | .medium => 1
  | .heavy => 12/10

/-- The playback tiers of `SoundManager`. -/
inductive SoundTier where
  | webAudio
  | html5
  | synthesized
deriving DecidableEq, Repr

/-- The tier selection and volume passing of
`SoundManager.playRewardSound` (`sound.ts` 109–132): the decoded-buffer
and HTML-audio tiers receive `min(volume * multiplier, 1)`; the
synthesized final fallback receives the raw `volume` argument. -/
def playRewardSoundDispatch (useWebAudio hasBuffer hasElement : Bool)
    (intensity : Intensity) (volume : ℚ) : SoundTier × ℚ :=
  let adjustedVolume := min (volume * volumeMultiplier intensity) 1
  if useWebAudio && hasBuffer then (.webAudio, adjustedVolume)
  else if hasElement then (.html5, adjustedVolume)
  else (.synthesized, volume)

/-- `ConfettiManager.clamp` (`confetti.ts` 224–228). -/
def clamp (value lo hi : ℚ) : ℚ :=
  if value < lo then lo else if value > hi then hi else value

/-- The origin actually used by `ConfettiManager.burst`
(`confetti.ts` 87–88): the requested origin (default: horizontal center
and a quarter of the viewport height) clamped componentwise into
`[40, max 40 (dimension - 40)]`. -/
def burstOrigin (origin : Option Coord) (width height : ℚ) : Coord :=
  { x := clamp ((origin.map Coord.x).getD (width / 2)) 40
      (max 40 (width - 40))
    y := clamp ((origin.map Coord.y).getD (height * (1/4))) 40
      (max 40 (height - 40)) }

/-- The pair of direct manager calls made by a settings-tab test button
(`settings.ts` 157–183). -/
structure TestAction where
  soundCall : SoundDirective
  confettiCall : ConfettiDirective
deriving DecidableEq, Repr

/-- The "Test single completion" button: calls
`playRewardSound('light', soundVolume)` and
`burst({intensity:'light', particleCount:15, duration})` directly. -/
def testSingleCompletion (s : RewardSettings) : TestAction :=
  { soundCall := ⟨.light, s.soundVolume⟩
    confettiCall := ⟨.light, 15, s.confettiDuration⟩ }

/-- The "Test batch completion" button: calls
`playRewardSound('heavy', soundVolume)` and
`burst({intensity:'heavy', particleCount:50, duration})` directly. -/
def testBatchCompletion (s : RewardSettings) : TestAction :=
  { soundCall := ⟨.heavy, s.soundVolume⟩
    confettiCall := ⟨.heavy, 50, s.confettiDuration⟩ }

lemma mapGet_mapDel_self {β : Type} (m : List (String × β)) (k : String) :
    mapGet (mapDel m k) k = none := by
  induction m with
  | nil => simp [mapDel, mapGet]
  | cons p rest ih =>
      obtain ⟨k', v⟩ := p
      by_cases h : k' = k
      · simp [mapDel, h, ih]
      · simp [mapDel, mapGet, h, ih]

/-- Claim C10: enqueuing a check event for key (document, line) always
removes that key's entry from the coordinate cache, whether or not the
entry was fresh enough to be used, so after any enqueue the cache holds no
entry for that key. -/
theorem c10_enqueue_always_clears_cache_entry
    (geom : String → Nat → Option Coord) (s : RewardSettings)
    (st : PluginState) (e : TaskEvent) (now : Nat) :
    mapGet (queueTaskEvent geom s st e now).recentTaskCoordinates
      (mkKey e.file e.line) = none := by
  simp [queueTaskEvent, mapGet_mapDel_self]

/-- Claim C7: for an enqueued check event on key (document, line), a
coordinate cached strictly less than 1500 ms before enqueue time is used
verbatim as the event's coordinate; a stale or absent cache entry (with no
coordinate on the event itself, as on the metadata-diff path) makes
resolution fall through to the geometry lookup. -/
theorem c7_coordinate_cache_round_trip
    (geom : String → Nat → Option Coord) (s : RewardSettings)
    (st : PluginState) (e : TaskEvent) (now : Nat) (c : Coord) (ts : Nat) :
    (mapGet st.recentTaskCoordinates (mkKey e.file e.line) = some (c, ts) →
      now - ts < 1500 →
      (queueTaskEvent geom s st e now).taskEventQueue =
        st.taskEventQueue ++ [{ e with coords := some c }]) ∧
    (mapGet st.recentTaskCoordinates (mkKey e.file e.line) = some (c, ts) →
      ¬ now - ts < 1500 → e.coords = none →
      (queueTaskEvent geom s st e now).taskEventQueue =
        st.taskEventQueue ++ [{ e with coords := geom e.file e.line }]) ∧
    (mapGet st.recentTaskCoordinates (mkKey e.file e.line) = none →
      e.coords = none →
      (queueTaskEvent geom s st e now).taskEventQueue =
        st.taskEventQueue ++ [{ e with coords := geom e.file e.line }]) := by
  refine ⟨?_, ?_, ?_⟩
  · intro hget hfresh
    simp [queueTaskEvent, hget, hfresh]
  · intro hget hstale hnone
    simp [queueTaskEvent, hget, hstale, hnone]
  · intro hget hnone
    simp [queueTaskEvent, hget, hnone]

/-- Witness for C7 at a concrete input: a coordinate cached 100 ms before
the enqueue is returned verbatim. -/
theorem c7_coordinate_cache_round_trip_witness :
    (queueTaskEvent (fun _ _ => none) DEFAULT_SETTINGS
        { initState with
            recentTaskCoordinates := [("a.md:3", ⟨12, 34⟩, 900)] }
        { file := "a.md", line := 3, checked := true, timestamp := 1000 }
        1000).taskEventQueue =
      [{ file := "a.md", line := 3, checked := true, timestamp := 1000,
         coords := some ⟨12, 34⟩ }] := by
  have h := (c7_coordinate_cache_round_trip (fun _ _ => none)
    DEFAULT_SETTINGS
    { initState with recentTaskCoordinates := [("a.md:3", ⟨12, 34⟩, 900)] }
    { file := "a.md", line := 3, checked := true, timestamp := 1000 }
    1000 ⟨12, 34⟩ 900).1 (by decide) (by decide)
  simpa [initState] using h

lemma clamp_mem (v lo hi : ℚ) (h : lo ≤ hi) :
    lo ≤ clamp v lo hi ∧ clamp v lo hi ≤ hi := by
  unfold clamp
  split_ifs with h1 h2 <;> constructor <;> linarith

lemma clamp_eq_of_mem (v lo hi : ℚ) (h1 : lo ≤ v) (h2 : v ≤ hi) :
    clamp v lo hi = v := by
  unfold clamp
  split_ifs with ha hb
  · linarith
  · linarith
  · rfl

/-- Claim C9: the origin used by `burst` is the requested origin clamped
componentwise into `[40, max 40 (dimension - 40)]`, with defaults of the
horizontal center and a quarter of the viewport height when no origin is
supplied; in particular a requested origin already inside the interval is
used verbatim and the used origin never leaves the interval. -/
theorem c9_burst_origin_clamped (origin : Option Coord) (w h : ℚ) :
    (40 ≤ (burstOrigin origin w h).x ∧
      (burstOrigin origin w h).x ≤ max 40 (w - 40)) ∧
    (40 ≤ (burstOrigin origin w h).y ∧
      (burstOrigin origin w h).y ≤ max 40 (h - 40)) ∧
    burstOrigin none w h = burstOrigin (some ⟨w / 2, h * (1/4)⟩) w h ∧
    (∀ p : Coord, origin = some p → 40 ≤ p.x → p.x ≤ max 40 (w - 40) →
      (burstOrigin origin w h).x = p.x) ∧
    (∀ p : Coord, origin = some p → 40 ≤ p.y → p.y ≤ max 40 (h - 40) →
      (burstOrigin origin w h).y = p.y) := by
  refine ⟨?_, ?_, rfl, ?_, ?_⟩
  · exact clamp_mem _ _ _ (le_max_left _ _)
  · exact clamp_mem _ _ _ (le_max_left _ _)
  · intro p hp h1 h2
    subst hp
    simpa [burstOrigin] using clamp_eq_of_mem p.x 40 (max 40 (w - 40)) h1 h2
  · intro p hp h1 h2
    subst hp
    simpa [burstOrigin] using clamp_eq_of_mem p.y 40 (max 40 (h - 40)) h1 h2

/-- Witness for C9 at a concrete input: on a 1000×800 viewport, a
requested origin at x = 5 (5 px from the left edge) is pushed to x = 40,
and its in-range y = 600 is kept verbatim. -/
theorem c9_burst_origin_clamped_witness :
    (40 ≤ (burstOrigin (some ⟨5, 600⟩) 1000 800).x ∧
      (burstOrigin (some ⟨5, 600⟩) 1000 800).x ≤ max 40 (1000 - 40)) ∧
    (burstOrigin (some ⟨5, 600⟩) 1000 800).y = 600 := by
  have h := c9_burst_origin_clamped (some ⟨5, 600⟩) 1000 800
  refine ⟨h.1, h.2.2.2.2 ⟨5, 600⟩ rfl (by norm_num) ?_⟩
  rw [max_def]
  norm_num

/-- Counterexample for claim C8: with no decoded buffer and no audio
element, `playRewardSound('heavy', 0.5)` reaches the synthesized fallback
with the raw volume 0.5, not the scaled-and-clamped 0.6 the claim
requires. -/
theorem c8_counterexample :
    playRewardSoundDispatch false false false .heavy (1/2) =
      (.synthesized, 1/2) ∧
    ¬ (playRewardSoundDispatch false false false .heavy (1/2)).2 =
        min ((1/2 : ℚ) * volumeMultiplier .heavy) 1 := by
  constructor
  · rfl
  · intro heq
    rw [show (playRewardSoundDispatch false false false .heavy (1/2)).2
          = 1/2 from rfl] at heq
    rw [show volumeMultiplier .heavy = 12/10 from rfl] at heq
    rw [min_def] at heq
    norm_num at heq

/-- Claim C8 as amended: the decoded-buffer and HTML-audio tiers receive
the intensity-scaled volume clamped to at most 1, while the synthesized
final fallback receives the raw unscaled volume. -/
theorem c8_amended_volume_per_tier (u b e : Bool) (i : Intensity) (v : ℚ) :
    ((playRewardSoundDispatch u b e i v).1 ≠ .synthesized →
      (playRewardSoundDispatch u b e i v).2 =
        min (v * volumeMultiplier i) 1) ∧
    ((playRewardSoundDispatch u b e i v).1 = .synthesized →
      (playRewardSoundDispatch u b e i v).2 = v) := by
  unfold playRewardSoundDispatch
  by_cases h1 : (u && b) = true <;> by_cases h2 : e = true <;>
    simp [h1, h2]

/-- Witness for C8's amended claim at a concrete input: the decoded-buffer
tier plays heavy at `min (0.5 * 1.2) 1`. -/
theorem c8_amended_volume_per_tier_witness :
    (playRewardSoundDispatch true true false .heavy (1/2)).2 =
      min ((1/2 : ℚ) * volumeMultiplier .heavy) 1 :=
  (c8_amended_volume_per_tier true true false .heavy (1/2)).1 (by decide)

/-- Counterexample for claim C6: at the default settings, the
"Test single completion" button dispatches a confetti burst with 15
particles at intensity light, while the `getFeedbackProfile` +
`triggerFeedback` path for batch size 1 dispatches 150 particles at
intensity heavy — the button does not invoke that path. -/
theorem c6_counterexample :
    (testSingleCompletion DEFAULT_SETTINGS).confettiCall.particleCount = 15 ∧
    (testSingleCompletion DEFAULT_SETTINGS).confettiCall.intensity =
      Intensity.light ∧
    (triggerFeedback (fun _ _ => none) DEFAULT_SETTINGS
        (getFeedbackProfile DEFAULT_SETTINGS false 1) []).confetti =
      some (⟨.heavy, 150, 800⟩, none) := by
  exact ⟨rfl, rfl, rfl⟩

/-- Claim C6 as amended: the two test actions call the sound and confetti
managers directly with hard-coded intensities light/heavy and particle
counts 15/50 (plus the user's `soundVolume` and `confettiDuration`),
bypassing `getFeedbackProfile`/`triggerFeedback` — in particular they
ignore `globalMute`, which the profile path honors, and their particle
counts differ from the profile path's fixed 150. -/
theorem c6_amended_test_actions_bypass_profile (s : RewardSettings)
    (g : String → Nat → Option Coord) (rm : Bool) (n : Nat) :
    (testSingleCompletion s).soundCall = ⟨.light, s.soundVolume⟩ ∧
    (testSingleCompletion s).confettiCall = ⟨.light, 15, s.confettiDuration⟩ ∧
    (testBatchCompletion s).soundCall = ⟨.heavy, s.soundVolume⟩ ∧
    (testBatchCompletion s).confettiCall = ⟨.heavy, 50, s.confettiDuration⟩ ∧
    (triggerFeedback g { s with globalMute := true }
        (getFeedbackProfile { s with globalMute := true } rm n) []).sound =
      none ∧
    (testSingleCompletion { s with globalMute := true }).soundCall.volume =
      s.soundVolume ∧
    (∀ c : ConfettiDirective, (getFeedbackProfile s rm n).confetti = some c →
      c.particleCount = 150 ∧ c.intensity = .heavy) := by
  refine ⟨rfl, rfl, rfl, rfl, ?_, rfl, ?_⟩
  · simp [getFeedbackProfile, triggerFeedback]
  · intro c hc
    unfold getFeedbackProfile at hc
    by_cases hrm : (rm || s.disableConfetti) = true
    · simp [hrm] at hc
    · simp [hrm, getParticleCount] at hc
      exact ⟨by rw [← hc], by rw [← hc]⟩

/-- Witness for C6's amended claim at a concrete input: the profile path
at the default settings produces the fixed heavy/150 confetti directive. -/
theorem c6_amended_test_actions_bypass_profile_witness :
    (⟨Intensity.heavy, 150, 800⟩ : ConfettiDirective).particleCount = 150 ∧
    (⟨Intensity.heavy, 150, 800⟩ : ConfettiDirective).intensity =
      Intensity.heavy :=
  (c6_amended_test_actions_bypass_profile DEFAULT_SETTINGS
    (fun _ _ => none) false 1).2.2.2.2.2.2 ⟨.heavy, 150, 800⟩ rfl

/-- Counterexample for claim C5: an uncheck insertion into the ledger at
t = 5000 retains an entry recorded at t = 10, which is 4990 ms old —
more than twice the 1000 ms undo window — because eviction does not run
on the uncheck path at all. -/
theorem c5_counterexample :
    (onTransition (fun _ _ => none) DEFAULT_SETTINGS
        { initState with undoProtection := [("old.md:0", 10)] }
        "a.md" 1 true false 5000).undoProtection =
      [("a.md:1", 5000), ("old.md:0", 10)] ∧
    DEFAULT_SETTINGS.undoWindowMs * 2 < 5000 - 10 := by
  exact ⟨rfl, by decide⟩

lemma mem_evictOld (m : List (String × Nat)) (now w2 : Nat)
    (key : String) (t : Nat) :
    (key, t) ∈ evictOld m now w2 ↔ (key, t) ∈ m ∧ now - t ≤ w2 := by
  induction m with
  | nil => simp [evictOld]
  | cons p rest ih =>
      obtain ⟨k', t'⟩ := p
      by_cases hold : now - t' > w2
      · simp only [evictOld, if_pos hold, ih, List.mem_cons]
        constructor
        · rintro ⟨hm, hle⟩
          exact ⟨Or.inr hm, hle⟩
        · rintro ⟨hm | hm, hle⟩
          · cases hm
            omega
          · exact ⟨hm, hle⟩
      · simp only [evictOld, if_neg hold, List.mem_cons, ih]
        constructor
        · rintro (hm | ⟨hm, hle⟩)
          · cases hm
            exact ⟨Or.inl rfl, by omega⟩
          · exact ⟨Or.inr hm, hle⟩
        · rintro ⟨hm | hm, hle⟩
          · exact Or.inl hm
          · exact Or.inr ⟨hm, hle⟩

/-- Claim C5 as amended: eviction runs in `cleanupUndoProtection` on the
check path (not on uncheck inserts, which only write their own key), and
it is a no-op whenever the ledger holds at most 100 entries; when the
ledger is larger, exactly the entries strictly older than
`undoWindowMs * 2` are evicted. -/
theorem c5_amended_lazy_threshold_eviction :
    (∀ (s : RewardSettings) (st : PluginState) (now : Nat),
      st.undoProtection.length ≤ 100 →
      cleanupUndoProtection s st now = st) ∧
    (∀ (s : RewardSettings) (st : PluginState) (now : Nat)
        (key : String) (t : Nat), 100 < st.undoProtection.length →
      ((key, t) ∈ (cleanupUndoProtection s st now).undoProtection ↔
        (key, t) ∈ st.undoProtection ∧ now - t ≤ s.undoWindowMs * 2)) ∧
    (∀ (g : String → Nat → Option Coord) (s : RewardSettings)
        (st : PluginState) (path : String) (line now : Nat),
      (onTransition g s st path line true false now).undoProtection =
        mapSet st.undoProtection (mkKey path line) now) := by
  refine ⟨?_, ?_, ?_⟩
  · intro s st now hle
    simp [cleanupUndoProtection, hle]
  · intro s st now key t hgt
    rw [cleanupUndoProtection, if_neg (by omega)]
    exact mem_evictOld _ _ _ _ _
  · intro g s st path line now
    simp [onTransition]

/-- Witness for C5's amended claim at a concrete input: with a single
stale ledger entry, cleanup is a no-op. -/
theorem c5_amended_lazy_threshold_eviction_witness :
    cleanupUndoProtection DEFAULT_SETTINGS
      { initState with undoProtection := [("old.md:0", 10)] } 5000 =
      { initState with undoProtection := [("old.md:0", 10)] } :=
  c5_amended_lazy_threshold_eviction.1 DEFAULT_SETTINGS
    { initState with undoProtection := [("old.md:0", 10)] } 5000 (by decide)

/-- Claim C1 (code bug demonstration): when the confetti driver throws
during dispatch inside a flush, the pending batch is not cleared, the
merge-timer handle is not cleared, `lastFeedbackTime` is not updated, and
the exception propagates to the caller — the spec requires that cleanup
be unconditional and that no driver exception propagate. -/
theorem c1_flush_throwing_driver_skips_cleanup :
    processMergedEventsExc (fun _ => .ok ()) c1ConfettiDrv (fun _ _ => none)
        DEFAULT_SETTINGS false c1State 1300 = (c1State, some "boom") ∧
    c1State.taskEventQueue.length = 1 ∧
    c1State.mergeTimer = some 1300 ∧
    c1State.lastFeedbackTime = 0 := by
  exact ⟨rfl, rfl, rfl, rfl⟩

lemma queueTaskEvent_mergeTimer (g : String → Nat → Option Coord)
    (s : RewardSettings) (st : PluginState) (e : TaskEvent) (now : Nat) :
    (queueTaskEvent g s st e now).mergeTimer = some (now + s.mergeWindowMs) :=
  rfl

lemma queueTaskEvent_lastFeedbackTime (g : String → Nat → Option Coord)
    (s : RewardSettings) (st : PluginState) (e : TaskEvent) (now : Nat) :
    (queueTaskEvent g s st e now).lastFeedbackTime = st.lastFeedbackTime :=
  rfl

lemma queueTaskEvent_queue_length (g : String → Nat → Option Coord)
    (s : RewardSettings) (st : PluginState) (e : TaskEvent) (now : Nat) :
    (queueTaskEvent g s st e now).taskEventQueue.length =
      st.taskEventQueue.length + 1 := by
  simp [queueTaskEvent]

lemma processMergedEvents_spec (g : String → Nat → Option Coord)
    (s : RewardSettings) (rm : Bool) (st : PluginState) (now : Nat) :
    ((processMergedEvents g s rm st now).2.isSome →
      s.throttleMs ≤ now - st.lastFeedbackTime ∧
      (processMergedEvents g s rm st now).1.lastFeedbackTime = now) ∧
    ((processMergedEvents g s rm st now).2 = none →
      (processMergedEvents g s rm st now).1.lastFeedbackTime =
        st.lastFeedbackTime) := by
  unfold processMergedEvents
  split_ifs with h1 h2 <;> (simp; try omega)

lemma fireTimer_spec (g : String → Nat → Option Coord)
    (s : RewardSettings) (rm : Bool) (st : PluginState) (exp : Nat) :
    ((fireTimer g s rm st exp).2.isSome →
      s.throttleMs ≤ exp - st.lastFeedbackTime ∧
      (fireTimer g s rm st exp).1.lastFeedbackTime = exp) ∧
    ((fireTimer g s rm st exp).2 = none →
      (fireTimer g s rm st exp).1.lastFeedbackTime = st.lastFeedbackTime) := by
  unfold fireTimer
  exact processMergedEvents_spec g s rm
    { st with liveTimers := st.liveTimers.erase exp } exp

lemma runArrivals_throttle_chain (g : String → Nat → Option Coord)
    (s : RewardSettings) (rm : Bool) :
    ∀ (arrivals : List (TaskEvent × Nat)) (st : PluginState),
      List.Chain (fun a b => s.throttleMs ≤ b - a) st.lastFeedbackTime
        (dispatchTimes (runArrivals g s rm st arrivals).2) := by
  intro arrivals
  induction arrivals with
  | nil =>
      intro st
      cases htimer : st.mergeTimer with
      | none => simp [runArrivals, htimer, dispatchTimes]
      | some exp =>
          simp only [runArrivals, htimer]
          cases hr : (fireTimer g s rm st exp).2 with
          | none => simp [dispatchTimes, hr]
          | some val =>
              simp only [dispatchTimes, List.filterMap_cons, hr,
                List.filterMap_nil, List.chain_cons, List.Chain.nil,
                and_true]
              exact ((fireTimer_spec g s rm st exp).1 (by simp [hr])).1
  | cons a rest ih =>
      intro st
      obtain ⟨e, t⟩ := a
      cases htimer : st.mergeTimer with
      | none =>
          simp only [runArrivals, htimer]
          have h := ih (queueTaskEvent g s st e t)
          rwa [queueTaskEvent_lastFeedbackTime] at h
      | some exp =>
          by_cases hle : exp ≤ t
          · simp only [runArrivals, htimer, if_pos hle]
            cases hr : (fireTimer g s rm st exp).2 with
            | none =>
                simp only [dispatchTimes, List.filterMap_cons, hr]
                have hpres := (fireTimer_spec g s rm st exp).2 hr
                have h := ih (queueTaskEvent g s (fireTimer g s rm st exp).1 e t)
                rw [queueTaskEvent_lastFeedbackTime, hpres] at h
                exact h
            | some val =>
                simp only [dispatchTimes, List.filterMap_cons, hr,
                  List.chain_cons]
                have hfire := (fireTimer_spec g s rm st exp).1 (by simp [hr])
                refine ⟨hfire.1, ?_⟩
                have h := ih (queueTaskEvent g s (fireTimer g s rm st exp).1 e t)
                rw [queueTaskEvent_lastFeedbackTime, hfire.2] at h
                exact h
          · simp only [runArrivals, htimer, if_neg hle]
            have h := ih (queueTaskEvent g s st e t)
            rwa [queueTaskEvent_lastFeedbackTime] at h

/-- Claim C4: a flush beginning strictly less than `throttleMs` after
`lastFeedbackTime` dispatches nothing, discards the entire pending batch
regardless of its contents, and does not update `lastFeedbackTime`; and
across any simulated run, consecutive dispatching flushes are at least
`throttleMs` apart. -/
theorem c4_throttle_drops_second_flush :
    (∀ (g : String → Nat → Option Coord) (s : RewardSettings) (rm : Bool)
        (st : PluginState) (now : Nat),
      now - st.lastFeedbackTime < s.throttleMs →
      processMergedEvents g s rm st now =
        ({ st with taskEventQueue := [], mergeTimer := none }, none) ∧
      (processMergedEvents g s rm st now).1.lastFeedbackTime =
        st.lastFeedbackTime ∧
      (processMergedEvents g s rm st now).2 = none) ∧
    (∀ (g : String → Nat → Option Coord) (s : RewardSettings) (rm : Bool)
        (arrivals : List (TaskEvent × Nat)) (st : PluginState),
      List.Chain (fun a b => s.throttleMs ≤ b - a) st.lastFeedbackTime
        (dispatchTimes (runArrivals g s rm st arrivals).2)) := by
  constructor
  · intro g s rm st now hthr
    refine ⟨?_, ?_, ?_⟩ <;> simp [processMergedEvents, hthr]
  · intro g s rm arrivals st
    exact runArrivals_throttle_chain g s rm arrivals st

/-- Witness for C4 at a concrete input: a flush 100 ms after the previous
one (throttle 250 ms) with one pending event is dropped whole. -/
theorem c4_throttle_drops_second_flush_witness :
    processMergedEvents (fun _ _ => none) DEFAULT_SETTINGS false
        { initState with
            taskEventQueue :=
              [{ file := "a.md", line := 0, checked := true,
                 timestamp := 1050 }]
            mergeTimer := some 1100
            lastFeedbackTime := 1000 } 1100 =
      ({ initState with
          taskEventQueue := []
          mergeTimer := none
          lastFeedbackTime := 1000 }, none) := by
  have h := (c4_throttle_drops_second_flush.1 (fun _ _ => none)
    DEFAULT_SETTINGS false
    { initState with
        taskEventQueue :=
          [{ file := "a.md", line := 0, checked := true, timestamp := 1050 }]
        mergeTimer := some 1100
        lastFeedbackTime := 1000 } 1100 (by decide)).1
  simpa [initState] using h

lemma runArrivals_tight (g : String → Nat → Option Coord)
    (s : RewardSettings) (rm : Bool) :
    ∀ (rest : List (TaskEvent × Nat)) (st : PluginState) (tk : Nat),
      st.mergeTimer = some (tk + s.mergeWindowMs) →
      tight s.mergeWindowMs tk rest →
      ¬ (lastTime tk rest + s.mergeWindowMs) - st.lastFeedbackTime <
          s.throttleMs →
      st.taskEventQueue.length ≠ 0 →
      ∃ stf batch d,
        runArrivals g s rm st rest =
          (stf, [⟨lastTime tk rest + s.mergeWindowMs, some (batch, d)⟩]) ∧
        batch.length = st.taskEventQueue.length + rest.length := by
  intro rest
  induction rest with
  | nil =>
      intro st tk htimer _ hthr hne
      refine ⟨(fireTimer g s rm st (tk + s.mergeWindowMs)).1,
        st.taskEventQueue,
        triggerFeedback g s
          (getFeedbackProfile s rm st.taskEventQueue.length)
          st.taskEventQueue, ?_, by simp⟩
      simp only [runArrivals, htimer, lastTime] at hthr ⊢
      congr 1
      simp only [fireTimer, processMergedEvents]
      rw [if_neg (by simpa using hthr), if_neg (by simpa using hne)]
  | cons a rs ih =>
      intro st tk htimer ht hthr hne
      obtain ⟨e, t⟩ := a
      obtain ⟨h1, h2, h3⟩ := ht
      have hle : ¬ tk + s.mergeWindowMs ≤ t := by omega
      rw [show lastTime tk ((e, t) :: rs) = lastTime t rs from rfl] at hthr
      obtain ⟨stf, batch, d, heq, hlen⟩ :=
        ih (queueTaskEvent g s st e t) t
          (queueTaskEvent_mergeTimer g s st e t)
          h3
          (by rwa [queueTaskEvent_lastFeedbackTime])
          (by rw [queueTaskEvent_queue_length]; omega)
      refine ⟨stf, batch, d, ?_, ?_⟩
      · simp only [runArrivals, htimer, if_neg hle]
        rw [heq]
        rfl
      · rw [hlen, queueTaskEvent_queue_length]
        simp
        omega

/-- Claim C3: each enqueue cancels the previously running merge timer and
starts a new one of length `mergeWindowMs`, so at most one merge timer is
outstanding at any time; and for N check transitions each arriving within
`mergeWindowMs` of the previous one, exactly one flush occurs and it
dispatches with batch size N. -/
theorem c3_debounce_exactly_one_flush :
    (∀ (g : String → Nat → Option Coord) (s : RewardSettings)
        (st : PluginState) (e : TaskEvent) (now : Nat),
      st.liveTimers = st.mergeTimer.toList →
      (queueTaskEvent g s st e now).liveTimers = [now + s.mergeWindowMs] ∧
      (queueTaskEvent g s st e now).mergeTimer =
        some (now + s.mergeWindowMs) ∧
      (queueTaskEvent g s st e now).liveTimers.length ≤ 1) ∧
    (∀ (g : String → Nat → Option Coord) (s : RewardSettings) (rm : Bool)
        (e1 : TaskEvent) (t1 : Nat) (rest : List (TaskEvent × Nat)),
      tight s.mergeWindowMs t1 rest →
      s.throttleMs ≤ lastTime t1 rest + s.mergeWindowMs →
      ∃ stf batch d,
        runArrivals g s rm initState ((e1, t1) :: rest) =
          (stf, [⟨lastTime t1 rest + s.mergeWindowMs, some (batch, d)⟩]) ∧
        batch.length = rest.length + 1) := by
  constructor
  · intro g s st e now hinv
    cases htimer : st.mergeTimer with
    | none =>
        rw [htimer] at hinv
        simp only [Option.toList] at hinv
        refine ⟨?_, rfl, ?_⟩ <;> simp [queueTaskEvent, htimer, hinv]
    | some hdl =>
        rw [htimer] at hinv
        simp only [Option.toList] at hinv
        refine ⟨?_, rfl, ?_⟩ <;>
          simp [queueTaskEvent, htimer, hinv, List.erase_cons_head]
  · intro g s rm e1 t1 rest ht hthr
    have hstep :
        runArrivals g s rm initState ((e1, t1) :: rest) =
          runArrivals g s rm (queueTaskEvent g s initState e1 t1) rest := by
      simp only [runArrivals]
      rfl
    obtain ⟨stf, batch, d, heq, hlen⟩ :=
      runArrivals_tight g s rm rest (queueTaskEvent g s initState e1 t1) t1
        (queueTaskEvent_mergeTimer g s initState e1 t1)
        ht
        (by rw [queueTaskEvent_lastFeedbackTime]; simp [initState]; omega)
        (by rw [queueTaskEvent_queue_length]; simp [initState])
    refine ⟨stf, batch, d, by rw [hstep, heq], ?_⟩
    rw [hlen, queueTaskEvent_queue_length]
    simp [initState]
    omega

/-- Witness for C3 at a concrete input: two check transitions at t = 1000
and t = 1100 (merge window 300 ms) produce exactly one flush, at t = 1400,
dispatching a batch of size 2. -/
theorem c3_debounce_exactly_one_flush_witness :
    ∃ stf batch d,
      runArrivals (fun _ _ => none) DEFAULT_SETTINGS false initState
          [({ file := "a.md", line := 0, checked := true,
              timestamp := 1000 }, 1000),
           ({ file := "a.md", line := 1, checked := true,
              timestamp := 1100 }, 1100)] =
        (stf, [⟨1400, some (batch, d)⟩]) ∧
      batch.length = 2 := by
  have h := c3_debounce_exactly_one_flush.2 (fun _ _ => none)
    DEFAULT_SETTINGS false
    { file := "a.md", line := 0, checked := true, timestamp := 1000 } 1000
    [({ file := "a.md", line := 1, checked := true,
        timestamp := 1100 }, 1100)]
    (by exact ⟨by omega, by decide, trivial⟩) (by decide)
  simpa [lastTime] using h

lemma cleanupUndoProtection_small (s : RewardSettings) (st : PluginState)
    (now : Nat) (h : st.undoProtection.length ≤ 100) :
    cleanupUndoProtection s st now = st := by
  simp [cleanupUndoProtection, h]

lemma onTransition_check_eq (g : String → Nat → Option Coord)
    (s : RewardSettings) (st : PluginState) (path : String)
    (line now : Nat) :
    onTransition g s st path line false true now =
      match mapGet st.undoProtection (mkKey path line) with
      | some lastUndoTime =>
          if lastUndoTime ≠ 0 ∧ now - lastUndoTime < s.undoWindowMs then st
          else
            queueTaskEvent g s (cleanupUndoProtection s st now)
              { file := path, line := line, checked := true,
                timestamp := now } now
      | none =>
          queueTaskEvent g s (cleanupUndoProtection s st now)
            { file := path, line := line, checked := true,
              timestamp := now } now :=
  rfl

lemma onTransition_uncheck_eq (g : String → Nat → Option Coord)
    (s : RewardSettings) (st : PluginState) (path : String)
    (line now : Nat) :
    onTransition g s st path line true false now =
      { st with
          undoProtection :=
            mapSet st.undoProtection (mkKey path line) now } :=
  rfl

lemma queueTaskEvent_undoProtection (g : String → Nat → Option Coord)
    (s : RewardSettings) (st : PluginState) (e : TaskEvent) (now : Nat) :
    (queueTaskEvent g s st e now).undoProtection = st.undoProtection :=
  rfl

lemma onTransition_check_preserves_ledger (g : String → Nat → Option Coord)
    (s : RewardSettings) (st : PluginState) (path : String) (line now : Nat)
    (hlen : st.undoProtection.length ≤ 100) :
    (onTransition g s st path line false true now).undoProtection =
      st.undoProtection := by
  rw [onTransition_check_eq]
  cases hget : mapGet st.undoProtection (mkKey path line) with
  | none =>
      rw [queueTaskEvent_undoProtection,
        cleanupUndoProtection_small s st now hlen]
  | some u =>
      show (if u ≠ 0 ∧ now - u < s.undoWindowMs then st
          else queueTaskEvent g s (cleanupUndoProtection s st now)
            { file := path, line := line, checked := true,
              timestamp := now } now).undoProtection = st.undoProtection
      by_cases hsup : u ≠ 0 ∧ now - u < s.undoWindowMs
      · rw [if_pos hsup]
      · rw [if_neg hsup, queueTaskEvent_undoProtection,
          cleanupUndoProtection_small s st now hlen]

lemma mapDel_optLedger_self (key : String) (o : Option Nat) :
    mapDel (optLedger key o) key = [] := by
  cases o <;> simp [optLedger, mapDel]

lemma optLedger_length_le (key : String) (o : Option Nat) :
    (optLedger key o).length ≤ 100 := by
  cases o <;> simp [optLedger]

lemma runKeySeq_ledger (g : String → Nat → Option Coord)
    (s : RewardSettings) (path : String) (line : Nat) :
    ∀ (l : List (Bool × Nat)) (st : PluginState) (o : Option Nat),
      st.undoProtection = optLedger (mkKey path line) o →
      (runKeySeq g s path line st l).undoProtection =
        optLedger (mkKey path line) (lastUncheck o l) := by
  intro l
  induction l with
  | nil =>
      intro st o h
      simpa [runKeySeq, lastUncheck] using h
  | cons a rest ih =>
      intro st o h
      obtain ⟨b, t⟩ := a
      cases b
      · show (runKeySeq g s path line
            (onTransition g s st path line true false t) rest).undoProtection =
          optLedger (mkKey path line) (lastUncheck (some t) rest)
        apply ih
        rw [onTransition_uncheck_eq]
        show mapSet st.undoProtection (mkKey path line) t = _
        rw [h, mapSet, mapDel_optLedger_self]
        rfl
      · show (runKeySeq g s path line
            (onTransition g s st path line false true t) rest).undoProtection =
          optLedger (mkKey path line) (lastUncheck o rest)
        apply ih
        rw [onTransition_check_preserves_ledger g s st path line t
          (h ▸ optLedger_length_le (mkKey path line) o), h]

/-- Claim C2: in any sequence of check/uncheck transitions on one
(document, line) key starting from the initial state, a check arriving
strictly less than `undoWindowMs` after the most recent uncheck of that
key is suppressed outright (the state is unchanged, so nothing is
enqueued), while a check arriving more than `undoWindowMs` after it is
enqueued into the pending batch.  (`0 < tu` reflects JS truthiness of the
recorded `Date.now()` timestamp, which is always positive.) -/
theorem c2_undo_window_suppression (g : String → Nat → Option Coord)
    (s : RewardSettings) (path : String) (line : Nat)
    (l : List (Bool × Nat)) (tu tc : Nat)
    (hlast : lastUncheck none l = some tu) (htu : 0 < tu) :
    (tc - tu < s.undoWindowMs →
      onTransition g s (runKeySeq g s path line initState l) path line
        false true tc =
      runKeySeq g s path line initState l) ∧
    (s.undoWindowMs < tc - tu →
      (onTransition g s (runKeySeq g s path line initState l) path line
        false true tc).taskEventQueue.length =
      (runKeySeq g s path line initState l).taskEventQueue.length + 1) := by
  have hled := runKeySeq_ledger g s path line l initState none
    (by simp [initState, optLedger])
  rw [hlast] at hled
  have hget : mapGet
      (runKeySeq g s path line initState l).undoProtection
      (mkKey path line) = some tu := by
    rw [hled]
    simp [optLedger, mapGet]
  have hlen : (runKeySeq g s path line initState l).undoProtection.length ≤
      100 := by
    rw [hled]
    simp [optLedger]
  constructor
  · intro hclose
    rw [onTransition_check_eq, hget]
    exact if_pos ⟨by omega, hclose⟩
  · intro hfar
    rw [onTransition_check_eq, hget]
    show (if tu ≠ 0 ∧ tc - tu < s.undoWindowMs then
        runKeySeq g s path line initState l
      else queueTaskEvent g s
        (cleanupUndoProtection s (runKeySeq g s path line initState l) tc)
        { file := path, line := line, checked := true,
          timestamp := tc } tc).taskEventQueue.length =
      (runKeySeq g s path line initState l).taskEventQueue.length + 1
    rw [if_neg (by rintro ⟨-, hlt⟩; omega),
      cleanupUndoProtection_small s _ tc hlen,
      queueTaskEvent_queue_length]

/-- Witness for C2 at a concrete input: after an uncheck at t = 100 with a
1000 ms undo window, a re-check at t = 150 is suppressed. -/
theorem c2_undo_window_suppression_witness :
    onTransition (fun _ _ => none) DEFAULT_SETTINGS
        (runKeySeq (fun _ _ => none) DEFAULT_SETTINGS "a.md" 0 initState
          [(false, 100)])
        "a.md" 0 false true 150 =
      runKeySeq (fun _ _ => none) DEFAULT_SETTINGS "a.md" 0 initState
        [(false, 100)] :=
  (c2_undo_window_suppression (fun _ _ => none) DEFAULT_SETTINGS "a.md" 0
    [(false, 100)] 100 150 rfl (by decide)).1 (by decide)
